import Mathlib

/-!
Verification of the command dispatch, input normalisation, card generation and
resilient lookup layer of `src/telegram-bot/index.js`.

Strings are manipulated through their character lists (`String.data`) so that
every definition is executable by the kernel; `String.mk` packs results back.
JavaScript `undefined` is modelled by `Option`, string truthiness by
non-emptiness, and thrown exceptions by `Except Unit`.
-/

namespace CardBot

/-! ### Character-list string helpers (JS string primitives) -/

/-- JS whitespace class used by `trim` and the regex `\s`. -/
def isWs (c : Char) : Bool := c = ' ' || c = '\t' || c = '\n' || c = '\r'

/-- JS `String.prototype.trim`: drop whitespace from both ends. -/
def trimWs (cs : List Char) : List Char :=
  ((cs.dropWhile isWs).reverse.dropWhile isWs).reverse

/-- JS `input.replace(/\|/g, ' ')`: every pipe becomes a single space. -/
def pipeToSpace (cs : List Char) : List Char :=
  cs.map (fun c => if c = '|' then ' ' else c)

/-- Collapse runs of whitespace to one space, as `replace(/\s+/g, ' ')` does.
The boolean records whether the previous character was whitespace. -/
def collapseAux : List Char → Bool → List Char
  | [], _ => []
  | c :: rest, prevWs =>
    if isWs c then
      if prevWs then collapseAux rest true else ' ' :: collapseAux rest true
    else c :: collapseAux rest false

def collapseWs (cs : List Char) : List Char := collapseAux cs false

/-- JS `String.prototype.split` with a single-character separator: empty input
gives `[[]]` (JS gives `[""]`), separators delimit possibly empty fields. -/
def splitOnChar (sep : Char) : List Char → List (List Char)
  | [] => [[]]
  | c :: rest =>
    let r := splitOnChar sep rest
    if c = sep then [] :: r
    else (c :: r.headD []) :: r.tail

/-- JS string truthiness: the empty string is falsy. -/
def strTruthy (cs : List Char) : Bool := !cs.isEmpty

/-- JS `bin.replace(/x+$/i, '')`: strip the trailing run of `x`/`X`. -/
def stripTrailingX (cs : List Char) : List Char :=
  (cs.reverse.dropWhile (fun c => c = 'x' || c = 'X')).reverse

/-- JS `/x/i.test(s)`: does the string contain `x` or `X`? -/
def containsXChar (cs : List Char) : Bool :=
  cs.any (fun c => c = 'x' || c = 'X')

/-! ### Input normalizer (`parseGenInput`, index.js lines 194-217) -/

/-- Result shape of `parseGenInput`: `{ bin, month, year, cvv }` with
`undefined` fields as `none`. -/
structure GenSpec where
  bin : String
  month : Option String
  year : Option String
  cvv : Option String
  deriving DecidableEq

/-- The regex `/^20[2-3][0-9]$/` from line 211. -/
def isYear4 (m : List Char) : Bool :=
  match m with
  | ['2', '0', c, d] => (c = '2' || c = '3') && d.isDigit
  | _ => false

/-- The regex `/^0[1-9]|1[0-2]$/` from line 211.  Note the alternation
precedence: it matches a *prefix* `0[1-9]` or a *suffix* `1[0-2]`. -/
def monthLike (y : List Char) : Bool :=
  (match y with
   | '0' :: c :: _ => 49 ≤ c.toNat && c.toNat ≤ 57
   | _ => false) ||
  (match y.reverse with
   | d :: '1' :: _ => 48 ≤ d.toNat && d.toNat ≤ 50
   | _ => false)

/-- Line 201: `if (bin) bin = bin.replace(/x+$/i, '')`. -/
def binOf (ts : List (List Char)) : List Char :=
  let bin := (ts.get? 0).getD []
  if strTruthy bin then stripTrailingX bin else bin

/-- Lines 203-213: the month/year fix-ups, in source order — the `MM/YY` split
(lines 203-207), then 2-digit year expansion (line 209), then the swap
heuristic (lines 210-212). -/
def monthYearOf (ts : List (List Char)) : Option (List Char) × Option (List Char) :=
  let month := ts.get? 1
  let year := ts.get? 2
  let step5 : Option (List Char) × Option (List Char) :=
    match month with
    | some m =>
      if m.contains '/' then
        let parts := splitOnChar '/' m
        let m2 := parts.headD []
        let y := (parts.get? 1).getD []
        (some m2, some (if strTruthy y && y.length = 2 then '2' :: '0' :: y else y))
      else (some m, year)
    | none => (none, year)
  let month := step5.1
  let year := step5.2
  let year :=
    match year with
    | some y => if strTruthy y && y.length = 2 then some ('2' :: '0' :: y) else some y
    | none => none
  match month, year with
  | some m, some y =>
    if strTruthy y && strTruthy m && m.length = 4 && isYear4 m && monthLike y
    then (some y, some m) else (some m, some y)
  | m, y => (m, y)

/-- Lines 214-215: `if (cvv && /x/i.test(cvv)) cvv = undefined`. -/
def cvvOf (ts : List (List Char)) : Option (List Char) :=
  match ts.get? 3 with
  | some c => if strTruthy c && containsXChar c then none else some c
  | none => none

/-- Assemble the `parseGenInput` result from the positional tokens.  The bin is
computed from token 0, month/year from tokens 1-2, the cvv from token 3; the
source's sequential lets never make one group read another group's tokens. -/
def processTokens (ts : List (List Char)) : GenSpec :=
  ⟨String.mk (binOf ts),
   (monthYearOf ts).1.map String.mk,
   (monthYearOf ts).2.map String.mk,
   (cvvOf ts).map String.mk⟩

/-- Lines 196-200: trim, pipes to spaces, collapse whitespace, split on space. -/
def normTokens (input : String) : List (List Char) :=
  splitOnChar ' ' (collapseWs (pipeToSpace (trimWs input.data)))

/-- `parseGenInput` (index.js lines 194-217). -/
def parseGenInput (input : String) : GenSpec :=
  processTokens (normTokens input)

/-! ### Cooldown guard and slash-command middleware (lines 43-93) -/

def COOLDOWN_PERIOD : Nat := 2000

/-- `isCommandAllowed` (lines 48-57).  The state is the `userStates` map; the
JS test `!lastCommandTime` is true for a missing entry and for the falsy
timestamp `0`.  Returns the boolean and the updated map. -/
def isCommandAllowed (userStates : Nat → Option Nat) (now uid : Nat) :
    Bool × (Nat → Option Nat) :=
  match userStates uid with
  | none => (true, fun u => if u = uid then some now else userStates u)
  | some t =>
    if t = 0 ∨ COOLDOWN_PERIOD ≤ now - t then
      (true, fun u => if u = uid then some now else userStates u)
    else (false, userStates)

/-- Observable outcome of one pass of the `bot.use` middleware on a
slash-command update: replies sent by the middleware itself, whether the
handler chain (`next`) ran, and both pieces of mutable state as they stand
while the command is dispatched. -/
structure MwResult where
  replies : Nat
  handlerCalled : Bool
  inFlight : List (Nat × Nat)
  userStates : Nat → Option Nat

/-- The `bot.use` middleware (lines 60-93) on a message starting with `/`:
the dedup set is consulted first (silent drop), then the cooldown (one warning
reply), and only an admitted command is marked in-flight and dispatched. -/
def slashMiddleware (inFlight : List (Nat × Nat)) (userStates : Nat → Option Nat)
    (now uid mid : Nat) : MwResult :=
  if (uid, mid) ∈ inFlight then ⟨0, false, inFlight, userStates⟩
  else
    let res := isCommandAllowed userStates now uid
    if res.1 then ⟨0, true, (uid, mid) :: inFlight, res.2⟩
    else ⟨1, false, inFlight, res.2⟩

/-- Spec-side predicate for the cooldown being open: no prior timestamp, or at
least `COOLDOWN_PERIOD` ms elapsed since it. -/
def cooldownOpen (userStates : Nat → Option Nat) (uid now : Nat) : Bool :=
  match userStates uid with
  | none => true
  | some t => COOLDOWN_PERIOD ≤ now - t

/-! ### JSON values and the BIN lookup resolver (lines 122-163) -/

/-- JSON values; JS `undefined` is merged into `null` (both are falsy and both
throw on direct property access). -/
inductive Json where
  | null : Json
  | bool : Bool → Json
  | num : Int → Json
  | str : String → Json
  | arr : List Json → Json
  | obj : List (String × Json) → Json

/-- JS truthiness of a value. -/
def jsTruthy : Json → Bool
  | .null => false
  | .bool b => b
  | .num n => !(n = 0)
  | .str s => !(s.data.isEmpty)
  | .arr _ => true
  | .obj _ => true

/-- Plain property access `a.k`: throws on `null`/`undefined`, yields the
field of an object (missing fields are `undefined`), and `undefined` on any
other primitive. -/
def jsGet : Json → String → Except Unit Json
  | .null, _ => .error ()
  | .obj fs, k => .ok ((fs.lookup k).getD .null)
  | _, _ => .ok .null

/-- Optional-chaining access `a?.k`: never throws. -/
def jsGetOpt : Json → String → Json
  | .obj fs, k => (fs.lookup k).getD .null
  | _, _ => .null

/-- JS `a || b` on values. -/
def jsOr (a b : Json) : Json := if jsTruthy a then a else b

/-- Safe path lookup, used to state which payload value a result field holds. -/
def jsonAt : Json → List String → Json
  | j, [] => j
  | j, k :: ks => jsonAt (jsGetOpt j k) ks

/-- The common result shape built by `lookupBin`. -/
structure LookupResult where
  bank : Json
  brand : Json
  type : Json
  country : Json
  countryCode : Json
  level : Json

/-- Mapping of the binlist.net payload (lines 130-137).  Property accesses may
throw (e.g. on a `null` payload); the object literal otherwise fills each field
with the accessed value or its fallback literal. -/
def mapBinlist (j : Json) : Except Unit LookupResult := do
  let bank ← jsGet j "bank"
  let scheme ← jsGet j "scheme"
  let ty ← jsGet j "type"
  let country1 ← jsGet j "country"
  let country2 ← jsGet j "country"
  let brand ← jsGet j "brand"
  pure ⟨jsOr (jsGetOpt bank "name") (.str "Desconhecido"),
        jsOr scheme (.str "Desconhecida"),
        jsOr ty (.str "Desconhecido"),
        jsOr (jsGetOpt country1 "name") (.str "Desconhecido"),
        jsOr (jsGetOpt country2 "alpha2") (.str "??"),
        jsOr brand (.str "Desconhecido")⟩

/-- Mapping of the bintable.com payload (lines 147-154). -/
def mapBintable (j : Json) : Except Unit LookupResult := do
  let bank ← jsGet j "bank"
  let scheme ← jsGet j "scheme"
  let brand ← jsGet j "brand"
  let ty ← jsGet j "type"
  let country1 ← jsGet j "country"
  let country2 ← jsGet j "country"
  let level ← jsGet j "level"
  pure ⟨jsOr (jsGetOpt bank "name") (.str "Desconhecido"),
        jsOr scheme (jsOr brand (.str "Desconhecida")),
        jsOr ty (.str "Desconhecido"),
        jsOr (jsGetOpt country1 "name") (.str "Desconhecido"),
        jsOr (jsGetOpt country2 "code") (.str "??"),
        jsOr level (.str "Desconhecido")⟩

/-- Outcome of one provider fetch: a hard (network) error, or a response with
its `ok` flag and a body that either parses to JSON or fails to parse. -/
inductive ProvOutcome where
  | hardErr : ProvOutcome
  | resp : Bool → Except Unit Json → ProvOutcome

/-- `lookupBin` (lines 122-163) as a function of the two provider outcomes.
Also returns whether the secondary provider was queried at all.  Any throw
(network error, JSON parse failure, property access on a non-object payload)
lands in the surrounding `catch`, which returns `null`. -/
def lookupBin (o1 o2 : ProvOutcome) : Option LookupResult × Bool :=
  match o1 with
  | .hardErr => (none, false)
  | .resp ok1 body1 =>
    if ok1 then
      match body1 with
      | .error _ => (none, false)
      | .ok j1 =>
        match mapBinlist j1 with
        | .error _ => (none, false)
        | .ok r => (some r, false)
    else
      match o2 with
      | .hardErr => (none, true)
      | .resp ok2 body2 =>
        if ok2 then
          match body2 with
          | .error _ => (none, true)
          | .ok j2 =>
            match mapBintable j2 with
            | .error _ => (none, true)
            | .ok r => (some r, true)
        else (none, true)

/-! ### Registry (cedula) retry loop (lines 760-779) -/

/-- Outcome of one `fetchWithTimeout` call: a thrown error (timeout or network
failure) or a response with its HTTP status. -/
inductive FetchOutcome where
  | err : FetchOutcome
  | resp : Nat → FetchOutcome

/-- Trace of the cedula retry loop: how many fetches ran, which backoff sleeps
happened (ms, in order), and the thrown error or the final response status. -/
structure CedulaLoop where
  attempts : Nat
  sleeps : List Nat
  outcome : Except Unit Nat

/-- The `for (let attempt = 1; attempt <= 2; ...)` loop (lines 762-779) as a
function of the outcomes the two possible fetches would have.  On a response,
the status checks may sleep, but the trailing unconditional `break` then exits
the loop, so a second fetch happens only when the first one threw. -/
def cedulaRetryLoop (o1 o2 : FetchOutcome) : CedulaLoop :=
  match o1 with
  | .resp s =>
    if s = 429 then ⟨1, [1200], .ok s⟩
    else if 500 ≤ s ∧ s < 600 then ⟨1, [800], .ok s⟩
    else ⟨1, [], .ok s⟩
  | .err =>
    match o2 with
    | .resp s => ⟨2, [700], .ok s⟩
    | .err => ⟨2, [700], .error ()⟩

/-! ### Luhn-constrained card generator

`generateCard` and `isValidBin` live in `src/telegram-bot/utils.js`, which is
not among the sources; they are modelled from the spec (sections 4.3 and 8).
The gen-command handler that consumes them (lines 609-615) is in the sources
and is embedded as `genCommandCards`. -/

/-- Luhn weighted sum over a right-to-left digit list; the flag says whether
the current digit is doubled (digit-summed when the double exceeds 9). -/
def luhnAux : List Nat → Bool → Nat
  | [], _ => 0
  | d :: rest, dbl =>
    (if dbl then (if 5 ≤ d then 2 * d - 9 else 2 * d) else d) + luhnAux rest (!dbl)

/-- Luhn checksum of a number given most-significant-first. -/
def luhnSum (ds : List Nat) : Nat := luhnAux ds.reverse false

def luhnValid (ds : List Nat) : Bool := luhnSum ds % 10 = 0

/-- The check digit completing `body` (which sits at positions 2.. from the
right, so its last digit is doubled) to a Luhn-valid number. -/
def checkDigit (body : List Nat) : Nat :=
  (10 - luhnAux body.reverse true % 10) % 10

def binToDigits (s : String) : List Nat :=
  s.data.map (fun c => c.toNat - 48)

/-- Modelled from the spec: `isValidBin` of `src/telegram-bot/utils.js` is not
among the sources; section 4.3 defines the shared predicate as digits-only
with length inclusively between 6 and 16. -/
def isValidBin (bin : String) : Bool :=
  (6 ≤ bin.length && bin.length ≤ 16) && bin.data.all (fun c => c.isDigit)

structure Card where
  number : List Nat
  month : String
  year : String
  cvv : String

/-- The random draws one `generateCard` call consumes: filler digits for the
number and the randomized expiry/cvv fields. -/
structure Rand where
  filler : List Nat
  month : String
  year : String
  cvv : String

/-- Modelled from the spec: `generateCard` of `src/telegram-bot/utils.js` is
not among the sources; section 4.3 — extend the bin with random digits up to
the fixed total length of 16, then recompute the final digit so the whole
sequence satisfies the Luhn checksum.  The 15-digit body is therefore the
truncation of bin-plus-filler, and the 16th digit is the check digit. -/
def generateCard (bin : String) (r : Rand) : Card :=
  let body := (binToDigits bin ++ r.filler).take 15
  ⟨body ++ [checkDigit body], r.month, r.year, r.cvv⟩

/-- The `fixedMonth`/`fixedYear`/`fixedCVV` overrides of the gen handler. -/
structure Overrides where
  month : Option String
  year : Option String
  cvv : Option String

/-- JS `s.slice(-2)`: the last two characters. -/
def lastTwo (s : String) : String :=
  String.mk (s.data.reverse.take 2).reverse

/-- Lines 611-613: truthy overrides replace the randomized fields; the year
override is normalized to its last two digits (`fixedYear?.slice(-2)`, with
the card's own year kept if that slice were falsy). -/
def applyOverrides (c : Card) (o : Overrides) : Card :=
  let c1 :=
    match o.month with
    | some m => if strTruthy m.data then { c with month := m } else c
    | none => c
  let c2 :=
    match o.year with
    | some y =>
      if strTruthy y.data then
        { c1 with year := if strTruthy (lastTwo y).data then lastTwo y else c1.year }
      else c1
    | none => c1
  match o.cvv with
  | some v => if strTruthy v.data then { c2 with cvv := v } else c2
  | none => c2

/-- Lines 609-615: `Array(10).fill().map(() => { ... generateCard(bin) ... })`
— ten independent cards, each from its own random draws, with the parsed
overrides applied. -/
def genCommandCards (bin : String) (o : Overrides) (rs : Nat → Rand) : List Card :=
  (List.range 10).map (fun i => applyOverrides (generateCard bin (rs i)) o)

/-! ## Theorems -/

/-- The token processing only ever reads the first four positional tokens. -/
theorem processTokens_take4_aux (ts : List (List Char)) :
    processTokens ts = processTokens (ts.take 4) := by
  rcases ts with _ | ⟨a, _ | ⟨b, _ | ⟨c, _ | ⟨d, rest⟩⟩⟩⟩ <;> rfl

/-- C10: for every input string, the normalizer's result is determined by the
first four whitespace/pipe-delimited tokens alone — tokens beyond the fourth
are silently ignored. -/
theorem parseGenInput_ignores_extra_tokens (input : String) :
    parseGenInput input = processTokens ((normTokens input).take 4) :=
  processTokens_take4_aux (normTokens input)

/-- C8 counterexample: the fourth field `"1a3"` contains the letter `a`, yet
the normalizer keeps it as the cvv — the claim predicts `none`. -/
theorem parseGenInput_cvv_letter_kept_cex :
    (parseGenInput "477349002646|05|2027|1a3").cvv = some "1a3" := rfl

/-- C8 (amended): for every input whose fourth positional field contains the
letter `x` or `X` (the only letters line 215 tests for), the resulting
specification has the cvv unset. -/
theorem parseGenInput_cvv_x_dropped (input : String) (c : List Char)
    (h3 : (normTokens input).get? 3 = some c) (hx : containsXChar c = true) :
    (parseGenInput input).cvv = none := by
  have hcvv : cvvOf (normTokens input) = none := by
    unfold cvvOf
    rw [h3]
    have hne : c.isEmpty = false := by
      cases c with
      | nil => simp [containsXChar] at hx
      | cons a l => rfl
    simp [strTruthy, hne, hx]
  show (cvvOf (normTokens input)).map String.mk = none
  rw [hcvv]
  rfl

/-- C8 witness: the concrete input `"6|2|3|1x3"` has fourth token `1x3`
containing `x`, and its parsed cvv is indeed unset. -/
theorem parseGenInput_cvv_x_dropped_w :
    (normTokens "6|2|3|1x3").get? 3 = some ['1', 'x', '3'] ∧
    containsXChar ['1', 'x', '3'] = true ∧
    (parseGenInput "6|2|3|1x3").cvv = none :=
  ⟨rfl, rfl, parseGenInput_cvv_x_dropped "6|2|3|1x3" ['1', 'x', '3'] rfl rfl⟩

/-- C4 counterexample: on `"477349002646|05/27|123"` the third positional
field `"123"` lands in the year slot and is then overwritten by the expanded
`"2027"`, so the parsed cvv is `none`, not the claimed `"123"`. -/
theorem parseGenInput_slash_example_cex :
    (parseGenInput "477349002646|05/27|123").cvv = none := rfl

/-- C4 (amended): `parse("477349002646|05/27|123")` yields bin
`"477349002646"`, month `"05"`, year `"2027"` (the `MM/YY` split and 2-digit
year expansion fire), and the cvv unset: the third positional field is
consumed by the year slot and discarded when the slash-split reassigns the
year, so no cvv results. -/
theorem parseGenInput_slash_example :
    parseGenInput "477349002646|05/27|123" =
      ⟨"477349002646", some "05", some "2027", none⟩ := rfl

/-- C5: evaluating the normalizer at the claimed input.  The field-swap
heuristic does NOT fire: the 2-digit year `"06"` is first expanded to
`"2006"` (line 209), after which the swap condition's regex
`/^0[1-9]|1[0-2]$/` cannot match it, so the result keeps month `"2025"` and
year `"2006"` — contradicting both the claim and the code's own comment
`"Se o mês for inválido mas o ano parece mês (ex: 2025 06)"`. -/
theorem parseGenInput_swap_example_eval :
    parseGenInput "477349xxxx|2025|06" =
      ⟨"477349", some "2025", some "2006", none⟩ := rfl

/-- C2: evaluating the cedula retry loop when the first attempt returns HTTP
429 and a second attempt would have returned 200.  The loop performs the
1200 ms backoff sleep but then hits the unconditional `break` (line 774), so
only ONE fetch happens and the 429 response is surfaced — contradicting the
claim (and the code's own comment `"retry mais uma vez com backoff"`, line
765) that exactly one retry is performed. -/
theorem cedula_429_no_retry_eval :
    cedulaRetryLoop (.resp 429) (.resp 200) = ⟨1, [1200], .ok 429⟩ := rfl

/-- C6: whenever the clock is past the cooldown window's width (always true
for real `Date.now()` values), `isCommandAllowed` returns `true` and stamps
the user with the current time exactly when the user has no prior timestamp
or at least `COOLDOWN_PERIOD` ms have elapsed since it, and otherwise returns
`false` leaving the state untouched. -/
theorem isCommandAllowed_spec (userStates : Nat → Option Nat) (uid now : Nat)
    (h : COOLDOWN_PERIOD ≤ now) :
    isCommandAllowed userStates now uid =
      if cooldownOpen userStates uid now then
        (true, fun u => if u = uid then some now else userStates u)
      else (false, userStates) := by
  unfold isCommandAllowed cooldownOpen
  cases hs : userStates uid with
  | none => simp
  | some t =>
    by_cases ht : t = 0
    · subst ht
      have h0 : COOLDOWN_PERIOD ≤ now - 0 := by simpa using h
      simp [h0, h]
    · by_cases h2 : COOLDOWN_PERIOD ≤ now - t
      · simp [ht, h2]
      · simp [ht, h2]

/-- C6 witness: a user with no prior timestamp at time 5000 is allowed. -/
theorem isCommandAllowed_spec_w :
    COOLDOWN_PERIOD ≤ 5000 ∧ (isCommandAllowed (fun _ => none) 5000 7).1 = true := by
  refine ⟨by decide, ?_⟩
  rw [isCommandAllowed_spec (fun _ => none) 7 5000 (by decide)]
  rfl

/-- C7: in the slash-command middleware, a dedup-dropped command (its key
already in flight) produces zero replies and never reaches a handler, and a
command denied by the cooldown produces exactly one reply, reaches no
handler, and is never added to the in-flight set. -/
theorem slashMiddleware_spec (inFlight : List (Nat × Nat))
    (userStates : Nat → Option Nat) (now uid mid : Nat) :
    ((uid, mid) ∈ inFlight →
      slashMiddleware inFlight userStates now uid mid =
        ⟨0, false, inFlight, userStates⟩) ∧
    ((uid, mid) ∉ inFlight → (isCommandAllowed userStates now uid).1 = false →
      slashMiddleware inFlight userStates now uid mid =
        ⟨1, false, inFlight, (isCommandAllowed userStates now uid).2⟩) := by
  constructor
  · intro hmem
    simp [slashMiddleware, hmem]
  · intro hmem hfalse
    simp [slashMiddleware, hmem, hfalse]

/-- C7 witness: a duplicated key is silently dropped; a user stamped at the
current instant is denied with exactly one reply. -/
theorem slashMiddleware_spec_w :
    (slashMiddleware [(1, 2)] (fun _ => none) 0 1 2).replies = 0 ∧
    (slashMiddleware [] (fun _ => some 5000) 5000 1 2).replies = 1 := by
  constructor
  · rw [(slashMiddleware_spec [(1, 2)] (fun _ => none) 0 1 2).1 (by decide)]
  · rw [(slashMiddleware_spec [] (fun _ => some 5000) 5000 1 2).2 (by decide) rfl]

/-- C3 counterexample: the primary provider suffers a hard error while the
secondary would answer 200 with valid JSON; the code returns `null` without
ever querying the secondary (second component `false`), whereas the claim
says a hard error skips to the secondary, whose parsed response should win. -/
theorem lookupBin_hard_error_cex :
    lookupBin .hardErr (.resp true (.ok (.obj [("scheme", .str "visa")]))) =
      (none, false) := rfl

/-- C3 (amended): the secondary provider is queried exactly when the primary
responded with a non-success HTTP status (a hard error or parse failure on
the primary instead aborts the whole lookup with `null` via the catch-all);
any non-null result is the mapping of exactly one provider's successfully
parsed payload — the primary's, or the secondary's after a non-success
primary status — so an exhausted lookup yields `null` and never
secondary-looking data when the secondary itself failed. -/
theorem lookupBin_fallback_spec (o1 o2 : ProvOutcome) :
    ((lookupBin o1 o2).2 = true ↔ ∃ b, o1 = .resp false b) ∧
    (∀ r, (lookupBin o1 o2).1 = some r →
      (∃ j, o1 = .resp true (.ok j) ∧ mapBinlist j = .ok r) ∨
      (∃ b j, o1 = .resp false b ∧ o2 = .resp true (.ok j) ∧
        mapBintable j = .ok r)) := by
  rcases o1 with _ | ⟨ok1, body1⟩
  · simp [lookupBin]
  · cases ok1
    · rcases o2 with _ | ⟨ok2, body2⟩
      · simp [lookupBin]
      · cases ok2
        · simp [lookupBin]
        · rcases body2 with e | j2
          · simp [lookupBin]
          · cases hm : mapBintable j2 with
            | error e => simp [lookupBin, hm]
            | ok r => simp [lookupBin, hm]
    · rcases body1 with e | j1
      · simp [lookupBin]
      · cases hm : mapBinlist j1 with
        | error e => simp [lookupBin, hm]
        | ok r => simp [lookupBin, hm]

/-- C3 witness: a non-success primary status makes the secondary queried, and
a successfully parsed primary payload (the empty JSON object) accounts for
the non-null result. -/
theorem lookupBin_fallback_spec_w :
    (lookupBin (.resp false (.error ())) .hardErr).2 = true ∧
    ((∃ j, (ProvOutcome.resp true (.ok (Json.obj []))) =
        ProvOutcome.resp true (.ok j) ∧
        mapBinlist j = .ok ⟨.str "Desconhecido", .str "Desconhecida",
          .str "Desconhecido", .str "Desconhecido", .str "??",
          .str "Desconhecido"⟩) ∨
     (∃ b j, (ProvOutcome.resp true (.ok (Json.obj []))) = .resp false b ∧
        ProvOutcome.hardErr = .resp true (.ok j) ∧
        mapBintable j = .ok ⟨.str "Desconhecido", .str "Desconhecida",
          .str "Desconhecido", .str "Desconhecido", .str "??",
          .str "Desconhecido"⟩)) := by
  constructor
  · exact (lookupBin_fallback_spec (.resp false (.error ())) .hardErr).1.mpr
      ⟨.error (), rfl⟩
  · exact (lookupBin_fallback_spec (.resp true (.ok (.obj []))) .hardErr).2 _ rfl

/-- JS `a || b` yields one of its two operands. -/
theorem jsOr_cases (a b : Json) : jsOr a b = a ∨ jsOr a b = b := by
  unfold jsOr
  split
  · exact Or.inl rfl
  · exact Or.inr rfl

/-- C9: for every provider payload that is a JSON object — including one
missing any nested field — both payload mappings return without raising, and
each of the six result fields is either the payload's value at the accessed
path or its fixed fallback literal. -/
theorem mapPayload_total_fallback (fs : List (String × Json)) :
    (∃ r, mapBinlist (.obj fs) = .ok r ∧
      (r.bank = jsonAt (.obj fs) ["bank", "name"] ∨ r.bank = .str "Desconhecido") ∧
      (r.brand = jsonAt (.obj fs) ["scheme"] ∨ r.brand = .str "Desconhecida") ∧
      (r.type = jsonAt (.obj fs) ["type"] ∨ r.type = .str "Desconhecido") ∧
      (r.country = jsonAt (.obj fs) ["country", "name"] ∨
        r.country = .str "Desconhecido") ∧
      (r.countryCode = jsonAt (.obj fs) ["country", "alpha2"] ∨
        r.countryCode = .str "??") ∧
      (r.level = jsonAt (.obj fs) ["brand"] ∨ r.level = .str "Desconhecido")) ∧
    (∃ r, mapBintable (.obj fs) = .ok r ∧
      (r.bank = jsonAt (.obj fs) ["bank", "name"] ∨ r.bank = .str "Desconhecido") ∧
      (r.brand = jsonAt (.obj fs) ["scheme"] ∨ r.brand = jsonAt (.obj fs) ["brand"] ∨
        r.brand = .str "Desconhecida") ∧
      (r.type = jsonAt (.obj fs) ["type"] ∨ r.type = .str "Desconhecido") ∧
      (r.country = jsonAt (.obj fs) ["country", "name"] ∨
        r.country = .str "Desconhecido") ∧
      (r.countryCode = jsonAt (.obj fs) ["country", "code"] ∨
        r.countryCode = .str "??") ∧
      (r.level = jsonAt (.obj fs) ["level"] ∨ r.level = .str "Desconhecido")) := by
  constructor
  · refine ⟨_, rfl, ?_, ?_, ?_, ?_, ?_, ?_⟩ <;> exact jsOr_cases _ _
  · refine ⟨_, rfl, ?_, ?_, ?_, ?_, ?_, ?_⟩
    · exact jsOr_cases _ _
    · rcases jsOr_cases (jsGetOpt (.obj fs) "scheme")
        (jsOr (jsGetOpt (.obj fs) "brand") (.str "Desconhecida")) with h | h
      · exact Or.inl h
      · rcases jsOr_cases (jsGetOpt (.obj fs) "brand") (.str "Desconhecida") with h2 | h2
        · exact Or.inr (Or.inl (h.trans h2))
        · exact Or.inr (Or.inr (h.trans h2))
    · exact jsOr_cases _ _
    · exact jsOr_cases _ _
    · exact jsOr_cases _ _
    · exact jsOr_cases _ _

/-- Appending the recomputed check digit always yields a Luhn-valid number,
whatever the body digits are. -/
theorem luhn_append_check (body : List Nat) :
    luhnValid (body ++ [checkDigit body]) = true := by
  unfold luhnValid luhnSum
  rw [List.reverse_append]
  show decide ((checkDigit body + luhnAux body.reverse true) % 10 = 0) = true
  unfold checkDigit
  rw [decide_eq_true_eq]
  omega

/-- A valid bin has length between 6 and 16. -/
theorem isValidBin_length (bin : String) (h : isValidBin bin = true) :
    6 ≤ bin.length ∧ bin.length ≤ 16 := by
  unfold isValidBin at h
  simp only [Bool.and_eq_true, decide_eq_true_eq] at h
  exact ⟨h.1.1, h.1.2⟩

/-- The handler's overrides touch only month, year and cvv — never the
generated number. -/
theorem applyOverrides_number (c : Card) (o : Overrides) :
    (applyOverrides c o).number = c.number := by
  unfold applyOverrides
  rcases o with ⟨m, y, v⟩
  cases m <;> cases y <;> cases v <;> dsimp only <;> split_ifs <;> rfl

/-- The digit list of a bin has the bin's length. -/
theorem binToDigits_length (bin : String) :
    (binToDigits bin).length = bin.length := by
  unfold binToDigits
  rw [List.length_map]
  rfl

/-- With the filler sized to reach the fixed total, every generated number
has exactly 16 digits. -/
theorem generateCard_number_length (bin : String) (r : Rand)
    (hf : r.filler.length = 16 - bin.length) (hb : bin.length ≤ 16) :
    (generateCard bin r).number.length = 16 := by
  show (((binToDigits bin ++ r.filler).take 15) ++
    [checkDigit ((binToDigits bin ++ r.filler).take 15)]).length = 16
  rw [List.length_append, List.length_take, List.length_append,
    binToDigits_length, hf]
  simp only [List.length_singleton]
  omega

/-- A bin of at most 15 digits is a prefix of every number generated from
it: the 15-digit body starts with the bin and only the 16th digit is
recomputed. -/
theorem generateCard_prefix (bin : String) (r : Rand) (hb : bin.length ≤ 15) :
    binToDigits bin <+: (generateCard bin r).number := by
  have h1 : ((binToDigits bin ++ r.filler).take 15).take (binToDigits bin).length
      = binToDigits bin := by
    rw [List.take_take, min_eq_left (by rw [binToDigits_length]; omega),
      List.take_left]
  have h2 : ((binToDigits bin ++ r.filler).take 15) <+:
      ((binToDigits bin ++ r.filler).take 15) ++
        [checkDigit ((binToDigits bin ++ r.filler).take 15)] :=
    List.prefix_append _ _
  have h3 := (List.take_prefix (binToDigits bin).length
    ((binToDigits bin ++ r.filler).take 15)).trans h2
  rw [h1] at h3
  exact h3

/-- C1 counterexample: the 16-digit bin `0000000000000001` is accepted by the
bin-validity predicate, yet the generated number (all sixteen digits zero,
because the recomputed check digit overwrites the bin's final `1`) does not
start with that bin. -/
theorem genCommand_prefix_cex :
    isValidBin "0000000000000001" = true ∧
    decide (binToDigits "0000000000000001" <+:
      (generateCard "0000000000000001" ⟨[], "01", "27", "123"⟩).number) = false :=
  ⟨rfl, by decide⟩

/-- C1 (amended): for every bin accepted by the bin-validity predicate going
through one gen-command invocation, exactly 10 cards are produced and every
card's number is Luhn-valid and 16 digits long; when the bin moreover has at
most 15 digits, every card's number starts with the bin (for an accepted
16-digit bin the recomputed check digit may replace its last digit).
`generateCard`/`isValidBin` are modelled from the spec, their source file not
being among the sources. -/
theorem genCommand_spec (bin : String) (o : Overrides) (rs : Nat → Rand)
    (hb : isValidBin bin = true)
    (hf : ∀ i, (rs i).filler.length = 16 - bin.length) :
    (genCommandCards bin o rs).length = 10 ∧
    (∀ c ∈ genCommandCards bin o rs,
      luhnValid c.number = true ∧ c.number.length = 16) ∧
    (bin.length ≤ 15 → ∀ c ∈ genCommandCards bin o rs,
      binToDigits bin <+: c.number) := by
  refine ⟨by simp [genCommandCards], ?_, ?_⟩
  · intro c hc
    simp only [genCommandCards, List.mem_map, List.mem_range] at hc
    obtain ⟨i, _, rfl⟩ := hc
    rw [applyOverrides_number]
    exact ⟨luhn_append_check ((binToDigits bin ++ (rs i).filler).take 15),
      generateCard_number_length bin (rs i) (hf i) (isValidBin_length bin hb).2⟩
  · intro h15 c hc
    simp only [genCommandCards, List.mem_map, List.mem_range] at hc
    obtain ⟨i, _, rfl⟩ := hc
    rw [applyOverrides_number]
    exact generateCard_prefix bin (rs i) h15

/-- C1 witness: the 6-digit bin `477349` with ten filler digits per card. -/
theorem genCommand_spec_w :
    (genCommandCards "477349" ⟨none, none, none⟩
      (fun _ => ⟨List.replicate 10 3, "05", "27", "123"⟩)).length = 10 :=
  (genCommand_spec "477349" ⟨none, none, none⟩
    (fun _ => ⟨List.replicate 10 3, "05", "27", "123"⟩) rfl (fun _ => rfl)).1

end CardBot
